import Mathlib

set_option maxRecDepth 100000
set_option maxHeartbeats 4000000

/-!
Verification of the hybrid lender-classification and risk-scoring engine of
the frictrak backend (src/analyser_hybride.py and src/listes_completes_v2.py).

The Python code is shallowly embedded: each Python function becomes a Lean
definition of the same name, Python strings become Lean `String`, Python
floats become `ℚ`, integer scores become `ℤ` or `Nat`, and Python dicts
returned by the functions become Lean structures. All string operations are
implemented structurally over `List Char` so that every definition reduces
inside the kernel; 'upper', 'lower' and the regex word classes are modelled
on ASCII (the Python code also upcases accented letters, which none of the
verified properties depend on). Formatted-number interpolation inside
human-readable reason strings is elided: the reason strings keep their fixed
prefix text only.
-/

namespace SAR

/-! ## String primitives (models of the Python str operations used) -/

/-- Model of Python str.upper (ASCII letters). -/
def majuscules (s : String) : String := String.mk (s.data.map Char.toUpper)

/-- Model of Python str.lower (ASCII letters). -/
def minuscules (s : String) : String := String.mk (s.data.map Char.toLower)

/-- Whether `needle` is a prefix of the character list `l`. -/
def estPrefixeDe : List Char → List Char → Bool
  | [], _ => true
  | _ :: _, [] => false
  | a :: as, b :: bs => a = b && estPrefixeDe as bs

/-- Whether `needle` occurs as a contiguous sublist of `l`. -/
def contientListe (needle : List Char) : List Char → Bool
  | [] => estPrefixeDe needle []
  | c :: rest => estPrefixeDe needle (c :: rest) || contientListe needle rest

/-- Model of Python `needle in haystack` on strings: substring containment. -/
def containsStr (haystack needle : String) : Bool :=
  contientListe needle.data haystack.data

/-- Model of Python str.startswith. -/
def startsWithStr (s p : String) : Bool := estPrefixeDe p.data s.data

/-- Strip leading whitespace from a character list. -/
def coupeDebut : List Char → List Char
  | [] => []
  | c :: l => if c.isWhitespace then coupeDebut l else c :: l

/-- Model of Python str.strip(): strip whitespace from both ends. -/
def coupeEspaces (s : String) : String :=
  String.mk ((coupeDebut ((coupeDebut s.data).reverse)).reverse)

/-- Helper of `mots`: accumulates the current word (reversed) while scanning. -/
def motsAux : List Char → List Char → List String
  | acc, [] => if acc.isEmpty then [] else [String.mk acc.reverse]
  | acc, c :: l =>
    if c.isWhitespace then
      if acc.isEmpty then motsAux [] l else String.mk acc.reverse :: motsAux [] l
    else motsAux (c :: acc) l

/-- Model of Python str.split() with no separator: split on whitespace runs,
dropping empty pieces. -/
def mots (s : String) : List String := motsAux [] s.data

/-- Join a list of words with single spaces (used to model the collapsing
re.sub of normalize_description). -/
def joindreMots : List String → String
  | [] => ""
  | [w] => w
  | w :: ws => w ++ " " ++ joindreMots ws

/-- Strict code-point lexicographic order on character lists, as Python
compares strings. -/
def ltChars : List Char → List Char → Bool
  | [], [] => false
  | [], _ :: _ => true
  | _ :: _, [] => false
  | a :: as, b :: bs => a.val < b.val || (a = b && ltChars as bs)

/-- Strict code-point order on strings. -/
def ltStr (a b : String) : Bool := ltChars a.data b.data

/-- Whether a string list is strictly sorted in the code-point order. -/
def estTrieStrict : List String → Bool
  | [] => true
  | [_] => true
  | a :: b :: l => ltStr a b && estTrieStrict (b :: l)

/-! ## Curated entity lists (listes_completes_v2.py and analyser_hybride.py) -/

/-- Official OPC lender names (listes_completes_v2.py, PRETEURS_OFFICIELS_OPC). -/
def PRETEURS_OFFICIELS_OPC : List String := [
  "3IEMECHANCE.CA", "500 PREFERENTIEL", "500 PRÉFÉRENTIEL", "955PRET.CA",
  "955PRÊT.CA", "ACCORD", "ADVANCE CREDIT", "ADVANCE CREDIT TM",
  "AGENCE DE RECOUVREMENT FINA", "AIDE PRETS", "AIDE PRÊTS", "AIM FINANCE",
  "ALEZA", "ALLER CINQ CENT", "ALTERFINA", "AQUA SERVICES",
  "ARGENT COMPTANT KOBCASH", "ARGENT MAGIK", "ARGENT RAPIDE 911", "ASTRAL FINANCE",
  "AUTO 60 MINUTES", "AUTO DUROCHER", "AUTOMOBILE VISION", "BELABRI",
  "BESOINARGENTENLIGNE.COM", "BODDI DESIGN", "BOITE COMPTANT", "BOITE DE PRET",
  "BOÎTE COMPTANT", "BOÎTE DE PRÊT", "CAN FINANCE", "CAN FINANCE OPTION",
  "CAN FINANCE PLUS", "CAN FINANCE SOLUTION", "CANADA FINANCE PLUS", "CANADA FINANCE SOLUTION",
  "CAPITAL LENDCARE", "CARREFOUR AUTOMOBILES RIVE-NORD", "CASH COWBOY 500", "CENTRE DE COLLISION RIVE-NORD",
  "CHOMEDEY HYUNDAI", "CONSULTATIONSIMPLE", "CORPORATION CREDIT MEDICAL", "CREDIT COURTAGE",
  "CREDIT MEDICAL", "CREDIT PRIVILEGE", "CREDIT STATION", "CREDIT TOLEDO",
  "CREDITFINA", "CREDITMATIK", "CREDIKA", "CRÉDIT MÉDICAL",
  "CRÉDIT PRIVILÈGE", "CRÉDIT TOLEDO", "CRÉDITFINA", "CRÉDIKA",
  "DELTAFINA", "DEMANDE DE PRET", "DEMANDE DE PRÊT", "DEPOTRAPIDE.CA",
  "DONOVAN", "DONOVAN FINANCIAL SERVICES", "EASYCONSULTING", "EASYFINANCIAL",
  "EASYFINANCIERE", "EASYFINANCIÈRE", "EDEN PARK", "EDEN PARK MC",
  "EDENPARK", "EDENPARK MC", "EMPRUNTRAPIDE.COM", "ENTREPOT AUTO DUROCHER",
  "ENTREPÔT AUTO DUROCHER", "EQUIPRET SOLUTION", "ÉQUIPRÊT SOLUTION", "EST OUEST CREDIT",
  "EST OUEST CRÉDIT", "EVASION SPORT", "EXPRESS PAYDAY LOAN", "FAIRSTONE",
  "FAIRSTONE FINANCIAL", "FAIRSTONE FINANCIERE", "FAIRSTONE FINANCIÈRE", "FASTCASH 911",
  "FASTFORLOAN", "FINANCE 24", "FINANCE RENTUGO", "FINANCEMENTAT 116",
  "FINANCEMENT A MA FACON", "FINANCEMENT AUTO 60 MINUTES", "FINANCEMENT EDEN PARK", "FINANCEMENT EDENPARK",
  "FINANCEMENT ET CREDIT RIVE-SUD", "FINANCEMENT ET CRÉDIT RIVE-SUD", "FINANCEMENT FIDELE", "FINANCEMENT FIDÈLE",
  "FINANCEMENT NCR", "FINANCEMENT PREFERA", "FINANCEMENT À MA FAÇON", "FINANCIER DE GRANDE HAUTEUR",
  "FINANCIER HUARD", "FINANCIERE SPRINT", "FINANCIERE TRITAN", "FINANCIERS J.P.",
  "FINANCIÈRE NORTHLAKE", "FINANCIÈRE SPRINT", "FINANCIÈRE TRITAN", "FINACAPITALE",
  "FINART CAPITAL", "FIRST STOP LOANS", "FLASH LOAN", "FLASH SELECTION",
  "FLASH SÉLECTION", "FLEX PAY", "FLEXITI", "FLEXITI FINANCIAL",
  "FLEXITI FINANCIERE", "FLEXITI FINANCIÈRE", "FS PRET", "FS PRÊT",
  "GERVAIS AUTO", "GESTION ASC", "GESTION DE GESTION HEYDAY", "GESTION FLF",
  "GESTION HEYDAY", "GESTION INVESTISSEMENTS CALI", "GESTION JETTE LEMAY", "GESTION JKR",
  "GESTION MULTI-FINANCE", "GESTION OLLA", "GESTION PPA", "GLOBAL IR COMMUNICATIONS",
  "GO CREDIT", "GO CRÉDIT", "GOEASY", "GOFIVEHUNDRED",
  "GRANBY TOYOTA", "GROUPE ACCES RAPIDE", "GROUPE ACCÈS RAPIDE", "GROUPE ARBRE D'ARGENT",
  "GROUPE DE GESTION HEYDAY", "GROUPE DMF", "GROUPE EN DEMANDE", "GROUPE FINEXA",
  "GROUPE FIODIH", "GROUPE INSTA 500", "GROUPE LIBERTE", "GROUPE LIBERTÉ",
  "GROUPE PSP XPRESS", "GROUPE SCF", "GROUPE WB", "GURU CAPITAL",
  "H. GREGOIRE SAGUENAY", "H. GRÉGOIRE SAGUENAY", "H.T. TREMBLAY", "HAUTE LIBERTE FINANCES",
  "HAUTE LIBERTÉ FINANCES", "HC FINANCES", "HEROS DU JOUR DE PAIE", "HEROS PAYANT",
  "HEYDAY", "HIGH LIBERTY FINANCES", "HIGH RISE FINANCIAL", "HÉROS DU JOUR DE PAIE",
  "HÉROS PAYANT", "IA AUTO FINANCE", "IA FINANCEMENT AUTO", "ICEBERG FINANCE",
  "IFINANCE CANADA", "INFINITY LOANS", "INSTA 500", "INSTA CHEQUES",
  "INSTA-CHEQUES", "INSTANT AUTO CREDIT", "INSTANT AUTO CRÉDIT", "INSTANT LOANS CASH",
  "INVESTISSEMENTS SENNEVILLE", "J.P. FINANCIAL", "J.P. FINANCIAL SERVICES", "JOHNSON HEALTH TECHNOLOGIES CANADA COMMERCIAL",
  "KIA QUEBEC", "KIA QUÉBEC", "KIA SAINTE-FOY", "KIA STE-FOY",
  "KIA VAL-BELAIR", "KIA VAL-BÉLAIR", "KREDIT PRET", "KRÉDIT PRÊT",
  "LENDCARE CAPITAL", "LENDORA", "LENDORADO SERVICES", "LES INVESTISSEMENTS SENNEVILLE",
  "LES PLACEMENTS JC.D.A.", "LES PLACEMENTS JEANCLO", "LES SERVICES LENDORADO", "LES SERVICES RAPIDOLOAN",
  "LES SOLUTIONS PRETEURS", "LES SOLUTIONS PRÊTEURS", "LES TECHNOLOGIES JOHNSON HEALTH CANADA COMMERCIAL", "LM CREDIT",
  "LM CRÉDIT", "LOAN CLICK", "LOANS 500", "LOCATION MIRAGE",
  "LOCATION RICHELIEU", "LOONIE FINANCIAL", "MANUFACTURE DE BIJOUX UNIQUE", "MARKETING QUICKNEASY",
  "MDG FINANCIAL", "MDG FINANCIER", "MICROSPRETS.CA", "MINICASH",
  "MINIARGENT", "MON ARGENT COMPTANT", "MON TEMPS SOLDE SERVICE FINANCIER", "MONEY MART",
  "MONEY TREE GROUP", "MONTESTRIE AUTORAMA", "MY CASH PAY", "MY WAY FINANCING",
  "NATIONAL MONEY MART", "NCR FINANCE", "NCR FINANCIAL", "NCR FINANCIAL SERVICES",
  "NCR FINANCING", "NCR LOANS", "NORTHLAKE FINANCIAL", "NOVAARGENT",
  "NOVACASH", "NOVILO", "NOVILO FINANCE", "OBJECTIF FINANCE",
  "OCCASION PRILO", "OCCASION RIVE-NORD", "OCCASION SANS LIMITE", "OCCASION VILLE DE LONGUEUIL",
  "OCCASION VILLE DE QUEBEC", "OCCASION VILLE DE QUÉBEC", "PAIE FLEX", "PAIE PAR MOIS",
  "PAY HERO", "PAY MONTHLY", "PAYDAY HERO", "PETITSPRETS.CA",
  "PETITSPRÊTS.CA", "PLACEMENTS JC.D.A.", "PLACEMENTS JEANCLO", "PREFERA FINANCE",
  "PRET ALTERNATIF", "PRET BONNE VIE", "PRET CAPITAL", "PRET CLICK",
  "PRET ECLAIR", "PRET FORMULA", "PRET HEBDO", "PRET INTELLIGENT",
  "PRET MAGIQUE", "PRET MONARQUE", "PRET OLYMPIQUE", "PRET PAS PRET J'Y VAIS",
  "PRET POUR AIDER", "PRET PREMIER ARRET", "PRET QC", "PRET RAPIDE 247",
  "PRET RAPIDE MAB", "PRET SUR PAYE NATIONAL", "PRET SUR SALAIRE EXPRESS", "PRETEXTRA",
  "PRETHEURE", "PRETINTELLIGENT500", "PRETS 500", "PRETS INFINITY",
  "PRETS INSTANTANES CASH", "PRETS NCR", "PRETS QUICKY", "PRETS RAPIDO",
  "PRETSARGENT.COM", "PRETXTRA.CA", "PRETXTRA.COM", "PRILO OCCASION",
  "PRIME 500", "PRÊT ALTERNATIF", "PRÊT BONNE VIE", "PRÊT CAPITAL",
  "PRÊT CLICK", "PRÊT FORMULA", "PRÊT HEBDO", "PRÊT INTELLIGENT",
  "PRÊT MAGIQUE", "PRÊT MONARQUE", "PRÊT OLYMPIQUE", "PRÊT PAS PRÊT J'Y VAIS",
  "PRÊT POUR AIDER", "PRÊT PREMIER ARRÊT", "PRÊT QC", "PRÊT RAPIDE 247",
  "PRÊT RAPIDE MAB", "PRÊT SUR PAYE NATIONAL", "PRÊT SUR SALAIRE EXPRESS", "PRÊT ÉCLAIR",
  "PRÊTEXTRA", "PRÊTHEURE", "PRÊTINTELLIGENT500", "PRÊTPERSONNEL.CO",
  "PRÊTS 500", "PRÊTS INFINITY", "PRÊTS INSTANTANÉS CASH", "PRÊTS NCR",
  "PRÊTS QUICKY", "PRÊTS RAPIDO", "PROBLEMEARGENT.COM", "PUROMOBILE",
  "PUROPAIEMENT", "QUEBEC AUTO FINANCE", "QUÉBEC AUTO FINANCE", "QUICKFUND SOLUTION",
  "QUICKLOANS", "QUICKNEASY MARKETING", "QUICKY LOANS", "RAPIDOLOAN",
  "RAPIDOPRET", "RAPIDOPRÊT", "RENTUGO FINANCE", "RH HOLDING",
  "ROI RAPIDE", "ROYAL", "SCOOBY", "SERVICE DE FINANCEMENT ASTRAL FINANCE",
  "SERVICE RAPIDE", "SERVICES FINANCIERS 57", "SERVICES FINANCIERS DONOVAN", "SERVICES FINANCIERS ESNAT",
  "SERVICES FINANCIERS J.P.", "SERVICES FINANCIERS KPS", "SERVICES FINANCIERS NCR", "SMARTCASH500",
  "SOIN PRET", "SOIN PRÊT", "SOLIDEX LOANS", "SOLIDEX PRETS",
  "SOLIDEX PRÊTS", "SOLUTION CREDIT FINANCE", "SOLUTION CRÉDIT FINANCE", "SOLUTION DE FINANCEMENT RAPIDE",
  "SOLUTIONS ALTERFINA", "SOLUTIONS COMPTANT", "SPECIALISTEDUPRET.COM", "SPECIALISTEMICROPRET.CA",
  "SPECIALISTES DU PRET RAPIDE", "SPÉCIALISTES DU PRÊT RAPIDE", "SPEEDY KING", "SPRINT FINANCIAL",
  "STALK CAROLYN", "STATION CREDIT", "STATION CRÉDIT", "SUBARU BOISBRIAND",
  "SUBARU RIVE-NORD", "SYSTEME DASH", "SYSTÈME DASH", "THE LENDERS SOLUTIONS",
  "TOLEDO CREDIT", "TRITAN FINANCIAL", "UNIQUE JEWELLERY MANUFACTURING", "UPLIFT",
  "UPLIFT CANADA SERVICES", "VIACASH", "VISION AUTOMOBILE", "VITOPRET",
  "VITÔPRET", "VOODOO"
]

/-- Supplementary lender names (listes_completes_v2.py, PRETEURS_COMPLEMENTAIRES). -/
def PRETEURS_COMPLEMENTAIRES : List String := [
  "NEO CAPITAL", "NEOCAPITAL", "CAPITAL NEO", "GESTION CRL",
  "COBALT", "PRETURGENT", "CREDIT SECOURS", "CREDIT MAX",
  "PRET RAPIDE", "ARGENT RAPIDE", "CASH MONEY", "CASH 4 YOU",
  "DMO CREDIT", "PRET DIRECT", "514 LOANS", "COURTIERS DU QUEBEC",
  "SPEEDY CASH", "AFTERPAY", "KLARNA", "SEZZLE",
  "PAYBRIGHT", "PAYPAL CREDIT", "AFFIRM", "PROGRESSIVE LEASING",
  "CAPITAL ONE", "OPPLOANS", "AVANT", "LENDINGCLUB",
  "PROSPER", "UPGRADE", "BEST EGG", "SOFI",
  "SPRING FINANCIAL", "CREDITFRESH", "LENDIRECT", "MOGO",
  "ICASH", "LOAN EXPRESS", "INSTALOANS", "RADIUS FINANCIAL",
  "ECLIPSE FINANCIAL", "MORTGAGE INTELLIGENCE", "4 PILLARS", "BERNIER ET ASSOCIES"
]

/-- Full lender registry: the value of sorted(list(set(PRETEURS_OFFICIELS_OPC + PRETEURS_COMPLEMENTAIRES))) from listes_completes_v2.py line 466, written out; the lemmas after it prove it strictly sorted and member-equal to the union of the two lists. -/
def PRETEURS_TOUS : List String := [
  "3IEMECHANCE.CA", "4 PILLARS", "500 PREFERENTIEL", "500 PRÉFÉRENTIEL",
  "514 LOANS", "955PRET.CA", "955PRÊT.CA", "ACCORD",
  "ADVANCE CREDIT", "ADVANCE CREDIT TM", "AFFIRM", "AFTERPAY",
  "AGENCE DE RECOUVREMENT FINA", "AIDE PRETS", "AIDE PRÊTS", "AIM FINANCE",
  "ALEZA", "ALLER CINQ CENT", "ALTERFINA", "AQUA SERVICES",
  "ARGENT COMPTANT KOBCASH", "ARGENT MAGIK", "ARGENT RAPIDE", "ARGENT RAPIDE 911",
  "ASTRAL FINANCE", "AUTO 60 MINUTES", "AUTO DUROCHER", "AUTOMOBILE VISION",
  "AVANT", "BELABRI", "BERNIER ET ASSOCIES", "BESOINARGENTENLIGNE.COM",
  "BEST EGG", "BODDI DESIGN", "BOITE COMPTANT", "BOITE DE PRET",
  "BOÎTE COMPTANT", "BOÎTE DE PRÊT", "CAN FINANCE", "CAN FINANCE OPTION",
  "CAN FINANCE PLUS", "CAN FINANCE SOLUTION", "CANADA FINANCE PLUS", "CANADA FINANCE SOLUTION",
  "CAPITAL LENDCARE", "CAPITAL NEO", "CAPITAL ONE", "CARREFOUR AUTOMOBILES RIVE-NORD",
  "CASH 4 YOU", "CASH COWBOY 500", "CASH MONEY", "CENTRE DE COLLISION RIVE-NORD",
  "CHOMEDEY HYUNDAI", "COBALT", "CONSULTATIONSIMPLE", "CORPORATION CREDIT MEDICAL",
  "COURTIERS DU QUEBEC", "CREDIKA", "CREDIT COURTAGE", "CREDIT MAX",
  "CREDIT MEDICAL", "CREDIT PRIVILEGE", "CREDIT SECOURS", "CREDIT STATION",
  "CREDIT TOLEDO", "CREDITFINA", "CREDITFRESH", "CREDITMATIK",
  "CRÉDIKA", "CRÉDIT MÉDICAL", "CRÉDIT PRIVILÈGE", "CRÉDIT TOLEDO",
  "CRÉDITFINA", "DELTAFINA", "DEMANDE DE PRET", "DEMANDE DE PRÊT",
  "DEPOTRAPIDE.CA", "DMO CREDIT", "DONOVAN", "DONOVAN FINANCIAL SERVICES",
  "EASYCONSULTING", "EASYFINANCIAL", "EASYFINANCIERE", "EASYFINANCIÈRE",
  "ECLIPSE FINANCIAL", "EDEN PARK", "EDEN PARK MC", "EDENPARK",
  "EDENPARK MC", "EMPRUNTRAPIDE.COM", "ENTREPOT AUTO DUROCHER", "ENTREPÔT AUTO DUROCHER",
  "EQUIPRET SOLUTION", "EST OUEST CREDIT", "EST OUEST CRÉDIT", "EVASION SPORT",
  "EXPRESS PAYDAY LOAN", "FAIRSTONE", "FAIRSTONE FINANCIAL", "FAIRSTONE FINANCIERE",
  "FAIRSTONE FINANCIÈRE", "FASTCASH 911", "FASTFORLOAN", "FINACAPITALE",
  "FINANCE 24", "FINANCE RENTUGO", "FINANCEMENT A MA FACON", "FINANCEMENT AUTO 60 MINUTES",
  "FINANCEMENT EDEN PARK", "FINANCEMENT EDENPARK", "FINANCEMENT ET CREDIT RIVE-SUD", "FINANCEMENT ET CRÉDIT RIVE-SUD",
  "FINANCEMENT FIDELE", "FINANCEMENT FIDÈLE", "FINANCEMENT NCR", "FINANCEMENT PREFERA",
  "FINANCEMENT À MA FAÇON", "FINANCEMENTAT 116", "FINANCIER DE GRANDE HAUTEUR", "FINANCIER HUARD",
  "FINANCIERE SPRINT", "FINANCIERE TRITAN", "FINANCIERS J.P.", "FINANCIÈRE NORTHLAKE",
  "FINANCIÈRE SPRINT", "FINANCIÈRE TRITAN", "FINART CAPITAL", "FIRST STOP LOANS",
  "FLASH LOAN", "FLASH SELECTION", "FLASH SÉLECTION", "FLEX PAY",
  "FLEXITI", "FLEXITI FINANCIAL", "FLEXITI FINANCIERE", "FLEXITI FINANCIÈRE",
  "FS PRET", "FS PRÊT", "GERVAIS AUTO", "GESTION ASC",
  "GESTION CRL", "GESTION DE GESTION HEYDAY", "GESTION FLF", "GESTION HEYDAY",
  "GESTION INVESTISSEMENTS CALI", "GESTION JETTE LEMAY", "GESTION JKR", "GESTION MULTI-FINANCE",
  "GESTION OLLA", "GESTION PPA", "GLOBAL IR COMMUNICATIONS", "GO CREDIT",
  "GO CRÉDIT", "GOEASY", "GOFIVEHUNDRED", "GRANBY TOYOTA",
  "GROUPE ACCES RAPIDE", "GROUPE ACCÈS RAPIDE", "GROUPE ARBRE D'ARGENT", "GROUPE DE GESTION HEYDAY",
  "GROUPE DMF", "GROUPE EN DEMANDE", "GROUPE FINEXA", "GROUPE FIODIH",
  "GROUPE INSTA 500", "GROUPE LIBERTE", "GROUPE LIBERTÉ", "GROUPE PSP XPRESS",
  "GROUPE SCF", "GROUPE WB", "GURU CAPITAL", "H. GREGOIRE SAGUENAY",
  "H. GRÉGOIRE SAGUENAY", "H.T. TREMBLAY", "HAUTE LIBERTE FINANCES", "HAUTE LIBERTÉ FINANCES",
  "HC FINANCES", "HEROS DU JOUR DE PAIE", "HEROS PAYANT", "HEYDAY",
  "HIGH LIBERTY FINANCES", "HIGH RISE FINANCIAL", "HÉROS DU JOUR DE PAIE", "HÉROS PAYANT",
  "IA AUTO FINANCE", "IA FINANCEMENT AUTO", "ICASH", "ICEBERG FINANCE",
  "IFINANCE CANADA", "INFINITY LOANS", "INSTA 500", "INSTA CHEQUES",
  "INSTA-CHEQUES", "INSTALOANS", "INSTANT AUTO CREDIT", "INSTANT AUTO CRÉDIT",
  "INSTANT LOANS CASH", "INVESTISSEMENTS SENNEVILLE", "J.P. FINANCIAL", "J.P. FINANCIAL SERVICES",
  "JOHNSON HEALTH TECHNOLOGIES CANADA COMMERCIAL", "KIA QUEBEC", "KIA QUÉBEC", "KIA SAINTE-FOY",
  "KIA STE-FOY", "KIA VAL-BELAIR", "KIA VAL-BÉLAIR", "KLARNA",
  "KREDIT PRET", "KRÉDIT PRÊT", "LENDCARE CAPITAL", "LENDINGCLUB",
  "LENDIRECT", "LENDORA", "LENDORADO SERVICES", "LES INVESTISSEMENTS SENNEVILLE",
  "LES PLACEMENTS JC.D.A.", "LES PLACEMENTS JEANCLO", "LES SERVICES LENDORADO", "LES SERVICES RAPIDOLOAN",
  "LES SOLUTIONS PRETEURS", "LES SOLUTIONS PRÊTEURS", "LES TECHNOLOGIES JOHNSON HEALTH CANADA COMMERCIAL", "LM CREDIT",
  "LM CRÉDIT", "LOAN CLICK", "LOAN EXPRESS", "LOANS 500",
  "LOCATION MIRAGE", "LOCATION RICHELIEU", "LOONIE FINANCIAL", "MANUFACTURE DE BIJOUX UNIQUE",
  "MARKETING QUICKNEASY", "MDG FINANCIAL", "MDG FINANCIER", "MICROSPRETS.CA",
  "MINIARGENT", "MINICASH", "MOGO", "MON ARGENT COMPTANT",
  "MON TEMPS SOLDE SERVICE FINANCIER", "MONEY MART", "MONEY TREE GROUP", "MONTESTRIE AUTORAMA",
  "MORTGAGE INTELLIGENCE", "MY CASH PAY", "MY WAY FINANCING", "NATIONAL MONEY MART",
  "NCR FINANCE", "NCR FINANCIAL", "NCR FINANCIAL SERVICES", "NCR FINANCING",
  "NCR LOANS", "NEO CAPITAL", "NEOCAPITAL", "NORTHLAKE FINANCIAL",
  "NOVAARGENT", "NOVACASH", "NOVILO", "NOVILO FINANCE",
  "OBJECTIF FINANCE", "OCCASION PRILO", "OCCASION RIVE-NORD", "OCCASION SANS LIMITE",
  "OCCASION VILLE DE LONGUEUIL", "OCCASION VILLE DE QUEBEC", "OCCASION VILLE DE QUÉBEC", "OPPLOANS",
  "PAIE FLEX", "PAIE PAR MOIS", "PAY HERO", "PAY MONTHLY",
  "PAYBRIGHT", "PAYDAY HERO", "PAYPAL CREDIT", "PETITSPRETS.CA",
  "PETITSPRÊTS.CA", "PLACEMENTS JC.D.A.", "PLACEMENTS JEANCLO", "PREFERA FINANCE",
  "PRET ALTERNATIF", "PRET BONNE VIE", "PRET CAPITAL", "PRET CLICK",
  "PRET DIRECT", "PRET ECLAIR", "PRET FORMULA", "PRET HEBDO",
  "PRET INTELLIGENT", "PRET MAGIQUE", "PRET MONARQUE", "PRET OLYMPIQUE",
  "PRET PAS PRET J'Y VAIS", "PRET POUR AIDER", "PRET PREMIER ARRET", "PRET QC",
  "PRET RAPIDE", "PRET RAPIDE 247", "PRET RAPIDE MAB", "PRET SUR PAYE NATIONAL",
  "PRET SUR SALAIRE EXPRESS", "PRETEXTRA", "PRETHEURE", "PRETINTELLIGENT500",
  "PRETS 500", "PRETS INFINITY", "PRETS INSTANTANES CASH", "PRETS NCR",
  "PRETS QUICKY", "PRETS RAPIDO", "PRETSARGENT.COM", "PRETURGENT",
  "PRETXTRA.CA", "PRETXTRA.COM", "PRILO OCCASION", "PRIME 500",
  "PROBLEMEARGENT.COM", "PROGRESSIVE LEASING", "PROSPER", "PRÊT ALTERNATIF",
  "PRÊT BONNE VIE", "PRÊT CAPITAL", "PRÊT CLICK", "PRÊT FORMULA",
  "PRÊT HEBDO", "PRÊT INTELLIGENT", "PRÊT MAGIQUE", "PRÊT MONARQUE",
  "PRÊT OLYMPIQUE", "PRÊT PAS PRÊT J'Y VAIS", "PRÊT POUR AIDER", "PRÊT PREMIER ARRÊT",
  "PRÊT QC", "PRÊT RAPIDE 247", "PRÊT RAPIDE MAB", "PRÊT SUR PAYE NATIONAL",
  "PRÊT SUR SALAIRE EXPRESS", "PRÊT ÉCLAIR", "PRÊTEXTRA", "PRÊTHEURE",
  "PRÊTINTELLIGENT500", "PRÊTPERSONNEL.CO", "PRÊTS 500", "PRÊTS INFINITY",
  "PRÊTS INSTANTANÉS CASH", "PRÊTS NCR", "PRÊTS QUICKY", "PRÊTS RAPIDO",
  "PUROMOBILE", "PUROPAIEMENT", "QUEBEC AUTO FINANCE", "QUICKFUND SOLUTION",
  "QUICKLOANS", "QUICKNEASY MARKETING", "QUICKY LOANS", "QUÉBEC AUTO FINANCE",
  "RADIUS FINANCIAL", "RAPIDOLOAN", "RAPIDOPRET", "RAPIDOPRÊT",
  "RENTUGO FINANCE", "RH HOLDING", "ROI RAPIDE", "ROYAL",
  "SCOOBY", "SERVICE DE FINANCEMENT ASTRAL FINANCE", "SERVICE RAPIDE", "SERVICES FINANCIERS 57",
  "SERVICES FINANCIERS DONOVAN", "SERVICES FINANCIERS ESNAT", "SERVICES FINANCIERS J.P.", "SERVICES FINANCIERS KPS",
  "SERVICES FINANCIERS NCR", "SEZZLE", "SMARTCASH500", "SOFI",
  "SOIN PRET", "SOIN PRÊT", "SOLIDEX LOANS", "SOLIDEX PRETS",
  "SOLIDEX PRÊTS", "SOLUTION CREDIT FINANCE", "SOLUTION CRÉDIT FINANCE", "SOLUTION DE FINANCEMENT RAPIDE",
  "SOLUTIONS ALTERFINA", "SOLUTIONS COMPTANT", "SPECIALISTEDUPRET.COM", "SPECIALISTEMICROPRET.CA",
  "SPECIALISTES DU PRET RAPIDE", "SPEEDY CASH", "SPEEDY KING", "SPRING FINANCIAL",
  "SPRINT FINANCIAL", "SPÉCIALISTES DU PRÊT RAPIDE", "STALK CAROLYN", "STATION CREDIT",
  "STATION CRÉDIT", "SUBARU BOISBRIAND", "SUBARU RIVE-NORD", "SYSTEME DASH",
  "SYSTÈME DASH", "THE LENDERS SOLUTIONS", "TOLEDO CREDIT", "TRITAN FINANCIAL",
  "UNIQUE JEWELLERY MANUFACTURING", "UPGRADE", "UPLIFT", "UPLIFT CANADA SERVICES",
  "VIACASH", "VISION AUTOMOBILE", "VITOPRET", "VITÔPRET",
  "VOODOO", "ÉQUIPRÊT SOLUTION"
]

/-- Insurer names (listes_completes_v2.py, ASSURANCES_TOUTES). -/
def ASSURANCES_TOUTES : List String := [
  "BENEVA", "DESJARDINS ASSURANCE", "INDUSTRIELLE ALLIANCE", "LA CAPITALE",
  "SSQ", "LA PERSONNELLE", "L'UNIQUE", "INTACT",
  "AVIVA", "COOPERATORS", "WAWANESA", "RSA",
  "ECONOMICAL", "PEMBRIDGE", "PAFCO", "MANULIFE",
  "SUN LIFE", "CANADA VIE", "RBC ASSURANCE", "BMO ASSURANCE",
  "EMPIRE VIE", "HUMANIA", "ASSOMPTION VIE", "PLAN DE PROTECTION",
  "FORESTERS", "EQUITABLE", "PRIMERICA", "BELAIR",
  "OPTIMUM", "PROMUTUEL", "PRYSM", "UNICA",
  "ALLSTATE", "STATE FARM", "TRAVELERS", "SCOTIA ASSURANCE",
  "TD ASSURANCE", "CIBC ASSURANCE", "AXA", "ALLIANZ",
  "CHUBB", "ZURICH", "AIG", "LIBERTY MUTUAL",
  "ARCH", "SOMPO", "GENERALI", "SAGEN",
  "GENWORTH", "CMHC", "ASSURANT", "CARDIF",
  "CROIX BLEUE", "MEDAVIE", "TUGO", "FCT INSURANCE",
  "TITLEPLUS"
]

/-- Bankruptcy trustee names (listes_completes_v2.py, SYNDICS_TOUS). -/
def SYNDICS_TOUS : List String := [
  "MNP", "BDO", "KPMG", "JEAN FORTIN",
  "PIERRE ROY", "RAYMOND CHABOT", "RICHTER", "SAMSON BELAIR",
  "LEMIEUX NOLET", "BERNIER ET ASSOCIES", "BRESSE", "MALLETTE",
  "GINSBERG GINGRAS", "THIBAULT VAN HOUTTE", "ALAIN MENARD", "ANDRE LACOMBE",
  "BOUCHARD ET ASSOCIES", "CLAUDE HOUDE", "D TANNENBAUM", "FRANCOIS BERTRAND",
  "GILLES ROBILLARD", "GROUPE SERPONE", "HOULE MARCIL", "J AUCLAIR SYNDIC",
  "LAPORTE CPA", "MARTIN DESCHAMBAULT", "NATHALIE DION", "PELLETIER ASSOCIES",
  "SOLUTIONS 4 PILLARS", "SYNDIC", "SYNDIC AUTORISE", "TRUSTEE",
  "SAI", "LIT", "LICENSED INSOLVENCY TRUSTEE", "FAILLITE",
  "BANKRUPTCY", "PROPOSITION CONSOMMATEUR", "CONSUMER PROPOSAL", "INSOLVENCY",
  "INSOLVABILITE"
]

/-- Casino and gambling names (listes_completes_v2.py, CASINOS_JEUX). -/
def CASINOS_JEUX : List String := [
  "GIGADAT", "LOTO QUEBEC", "ESPACEJEUX", "MISE-O-JEU",
  "KINZO", "CASINO MONTREAL", "CASINO GATINEAU", "CASINO CHARLEVOIX",
  "POKER", "POKERSTARS", "BET365", "BETWAY",
  "UNIBET", "888CASINO", "JACKPOT", "SPIN CASINO",
  "ROYAL VEGAS", "LOTTERY", "POWERBALL", "MEGAMILLIONS",
  "LOTTO MAX", "LOTTO 649"
]

/-- Common merchant and service names (listes_completes_v2.py, COMMERCES_SERVICES). -/
def COMMERCES_SERVICES : List String := [
  "TIM HORTONS", "MCDONALD", "BURGER KING", "SUBWAY",
  "A&W", "WENDY", "KFC", "PIZZA",
  "STARBUCKS", "WALMART", "COSTCO", "CANADIAN TIRE",
  "RONA", "LOWE'S", "HOME DEPOT", "DOLLARAMA",
  "JEAN COUTU", "PHARMAPRIX", "IGA", "METRO",
  "SUPER C", "MAXI", "PROVIGO", "COUCHE-TARD",
  "SHELL", "PETRO-CANADA", "ESSO", "ULTRAMAR",
  "IRVING", "HUSKY", "HYDRO QUEBEC", "BELL",
  "ROGERS", "TELUS", "VIDEOTRON", "FIDO",
  "KOODO", "VIRGIN MOBILE", "COGECO", "SAAQ",
  "REVENU QUEBEC", "CRA", "NETFLIX", "SPOTIFY",
  "DISNEY+", "AMAZON PRIME", "APPLE TV", "YOUTUBE",
  "CRAVE", "CLUB ILLICO"
]

/-- Short terms that require a word-boundary match (listes_completes_v2.py, TERMES_WORD_BOUNDARY). -/
def TERMES_WORD_BOUNDARY : List String := [
  "SAI", "LIT", "ARCH", "AIG"
]

/-- Suspect lender keywords, +30 points (analyser_hybride.py, KEYWORDS_PRETEUR). -/
def KEYWORDS_PRETEUR : List String := [
  "PRET", "PRÊT", "EMPRUNT", "AVANCE",
  "CREDIT", "CRÉDIT", "FINANCE", "FINANCIERE",
  "FINANCIÈRE", "FINANCEMENT", "ARGENT", "CASH",
  "COMPTANT", "RAPIDE", "EXPRESS", "LOAN",
  "LOANS", "LENDING", "LENDER", "ADVANCE",
  "MONEY", "FAST", "QUICK", "INSTANT",
  "PAYDAY", "PMT", "PAYMENT", "PAIEMENT",
  "VIR", "VIREMENT", "TRANSFER"
]

/-- Suspect banking prefixes, +10 points (analyser_hybride.py, PREFIXES_SUSPECTS). -/
def PREFIXES_SUSPECTS : List String := [
  "PMT", "PAIEMENT", "PAYMENT", "VIR",
  "VIREMENT", "TRANSFER", "RETRAIT", "WITHDRAWAL",
  "DEBIT"
]

/-- Keywords marking a non-lender transaction (analyser_hybride.py, NON_PRETEUR_KEYWORDS). -/
def NON_PRETEUR_KEYWORDS : List String := [
  "SALAIRE", "SALARY", "PAIE", "PAYROLL",
  "WAGES", "REMUNERATION", "RÉMUNÉRATION", "REMBOURSEMENT IMPOT",
  "TAX REFUND", "IMPOT", "TAX RETURN", "REVENU QUEBEC",
  "REVENU CANADA", "VIREMENT PERSONNEL", "TRANSFER FROM", "DEPOT",
  "DEPOSIT", "TRANSFER PERSONAL", "PERSONNEL", "VIR INTERAC ENVOYE",
  "VIR INTERAC EFFECTUE", "VIREMENT INTERAC", "VIR INTERAC", "DIVIDEND",
  "DIVIDENDE", "INTEREST", "INTERET", "INTÉRÊT",
  "PENSION", "RETIREMENT", "VENTE", "SALE",
  "SOLD", "REFUND"
]

/-- Overly generic descriptions, -20 points (analyser_hybride.py, GENERIC_DESCRIPTIONS). -/
def GENERIC_DESCRIPTIONS : List String := [
  "TRANSFER", "VIREMENT", "PAYMENT", "PAIEMENT",
  "DEBIT", "CREDIT", "RETRAIT", "DEPOT"
]

/-- Gambling operators to exclude (analyser_hybride.py, EXCLUSIONS_GAMBLING). -/
def EXCLUSIONS_GAMBLING : List String := [
  "GIGADAT", "LOTO-QUEBEC", "LOTOQUEBEC", "ESPACEJEUX",
  "CASINO", "MISE-O-JEU", "POKER", "SLOTS",
  "BINGO", "PLAYNOW", "BET", "GAMING"
]

/-- Payment and investment services to exclude (analyser_hybride.py, EXCLUSIONS_SERVICES_PAIEMENT). -/
def EXCLUSIONS_SERVICES_PAIEMENT : List String := [
  "LOONIO", "PAYPER", "KOHO", "WEALTHSIMPLE",
  "QUESTRADE", "TANGERINE", "EQ BANK"
]

/-- Common merchants and utilities to exclude (analyser_hybride.py, EXCLUSIONS_AUTRES). -/
def EXCLUSIONS_AUTRES : List String := [
  "IGA", "METRO", "WALMART", "COSTCO",
  "DOLLARAMA", "CANADIAN TIRE", "SAAQ", "HYDRO",
  "VIDEOTRON", "BELL", "ROGERS", "TIM HORTONS",
  "MCDONALD", "JEAN COUTU"
]

/-- Bank-internal transaction patterns to exclude (analyser_hybride.py, EXCLUSIONS_PATTERNS). -/
def EXCLUSIONS_PATTERNS : List String := [
  "BILL PAYMENT", "TRANSFERSBILL", "TRANSFERSTRANSFER", "TRANSFERSINTERAC E-TRANSFER TO",
  "E-TRANSFER TO", "INTERAC E-TRANSFER TO", "WITHDRAWAL AT THE COUNTER", "WITHDRAWAL ON ATM",
  "CHEQUES/CASHWITHDRAWAL", "TRANSFERSWITHDRAWAL", "DEPOSIT ON ATM", "MOBILE DEPOSIT",
  "MASTERCARD", "VISA", "CARTE DE CRÉDIT", "CREDIT CARD",
  "DESJARDINS ODYSSÉE", "BMO", "RBC", "CIBC",
  "SCOTIA", "A30 EXPRESS", "A25 EXPRESS", "RQ PAYMENT",
  "MUNICIPAL", "SCHOOL TAXES"
]

/-- Suspicious round amounts, +15 points (analyser_hybride.py, MONTANTS_SUSPECTS). -/
def MONTANTS_SUSPECTS : List ℚ := [
  100, 150, 200, 250, 300, 400, 500,
  750, 1000, 1500, 2000, 2500, 3000,
  4000, 5000]

/-- The registry written out above is strictly sorted in the code-point
order Python's sorted() uses, hence duplicate-free: it is the value of
sorted(list(set(PRETEURS_OFFICIELS_OPC + PRETEURS_COMPLEMENTAIRES))) from
listes_completes_v2.py line 466, whose two operand lists appear verbatim
above. -/
theorem PRETEURS_TOUS_trie : estTrieStrict PRETEURS_TOUS = true := by
  decide

/-! ## Entity registry and matcher (listes_completes_v2.py) -/

/-- Model of est_preteur (listes_completes_v2.py lines 565-579): scan the
registry for the first name contained in the upper-cased description. -/
def est_preteur (description : String) : Bool × String :=
  let desc_upper := majuscules description
  match PRETEURS_TOUS.find? (fun p => containsStr desc_upper p) with
  | some p => (true, p)
  | none => (false, "")

/-- Python regex word character for the word-boundary model (ASCII). -/
def isWordChar (c : Char) : Bool := c.isAlphanum || c = '_'

/-- Whether `terme` occurs at the head of `texte` with a word boundary on
both sides; `prev` is the character just before `texte`, if any. -/
def wbIci (terme texte : List Char) (prev : Option Char) : Bool :=
  estPrefixeDe terme texte
    && (match prev with | none => true | some c => !isWordChar c)
    && (match texte.drop terme.length with | [] => true | c :: _ => !isWordChar c)

/-- Scan `texte` for a word-boundary occurrence of `terme`. -/
def wbCherche (terme : List Char) (prev : Option Char) : List Char → Bool
  | [] => wbIci terme [] prev
  | c :: rest => wbIci terme (c :: rest) prev || wbCherche terme (some c) rest

/-- Model of _match_avec_word_boundary (listes_completes_v2.py lines 586-594):
terms of TERMES_WORD_BOUNDARY match only as whole words, everything else by
plain containment. -/
def match_avec_word_boundary (terme texte : String) : Bool :=
  if terme ∈ TERMES_WORD_BOUNDARY then wbCherche terme.data none texte.data
  else containsStr texte terme

/-- Model of est_assurance (listes_completes_v2.py lines 596-610). -/
def est_assurance (description : String) : Bool × String :=
  let desc_upper := majuscules description
  match ASSURANCES_TOUTES.find? (fun a => match_avec_word_boundary a desc_upper) with
  | some a => (true, a)
  | none => (false, "")

/-- Model of est_syndic (listes_completes_v2.py lines 612-626). -/
def est_syndic (description : String) : Bool × String :=
  let desc_upper := majuscules description
  match SYNDICS_TOUS.find? (fun a => match_avec_word_boundary a desc_upper) with
  | some a => (true, a)
  | none => (false, "")

/-- Model of est_casino (listes_completes_v2.py lines 628-642). -/
def est_casino (description : String) : Bool × String :=
  let desc_upper := majuscules description
  match CASINOS_JEUX.find? (fun a => containsStr desc_upper a) with
  | some a => (true, a)
  | none => (false, "")

/-- Model of est_a_exclure (listes_completes_v2.py lines 644-675): returns
(must-exclude, reason, matched name). -/
def est_a_exclure (description : String) : Bool × String × String :=
  let (est_ass, nom_ass) := est_assurance description
  if est_ass then (true, "assurance", nom_ass)
  else
    let (est_syn, nom_syn) := est_syndic description
    if est_syn then (true, "syndic", nom_syn)
    else
      let (est_cas, nom_cas) := est_casino description
      if est_cas then (true, "casino", nom_cas)
      else
        let desc_upper := majuscules description
        match COMMERCES_SERVICES.find? (fun c => containsStr desc_upper c) with
        | some c => (true, "commerce", c)
        | none => (false, "", "")

/-- Result of categoriser_transaction: entity type, matched name, exclude flag. -/
structure Categorisation where
  type : String
  nom : String
  doit_exclure : Bool
deriving DecidableEq, Repr

/-- Model of categoriser_transaction (listes_completes_v2.py lines 677-701). -/
def categoriser_transaction (description : String) : Categorisation :=
  let (est_pret, nom_pret) := est_preteur description
  if est_pret then ⟨"preteur", nom_pret, false⟩
  else
    let (doit_exclure, raison, nom) := est_a_exclure description
    if doit_exclure then ⟨raison, nom, true⟩
    else ⟨"inconnu", "", false⟩

/-! ## Exclusion filter (analyser_hybride.py, est_exclus) -/

/-- Lender keywords of the transfer-tag override inside est_exclus
(analyser_hybride.py line 240). -/
def LENDER_KEYWORDS_VIREMENT : List String :=
  ["CREDIT", "LOAN", "PRET", "PRÊT", "FINANCE", "MONEY", "CASH", "SECOURS"]

/-- Category substrings excluded as ordinary expenses (analyser_hybride.py
line 224). -/
def CATEGORIES_DEPENSES : List String :=
  ["groceries", "gas", "fuel", "utilities", "bills", "insurance/car", "insurance/life"]

/-- The transfer-tag rule of est_exclus (analyser_hybride.py lines 233-243):
a transfer-tagged name is excluded unless it matches a known lender
(est_preteur) or its upper-cased form contains a lender keyword. -/
def exclusion_transfert (nom : String) : Bool :=
  if (est_preteur nom).1 then false
  else
    let nom_upper := majuscules nom
    if LENDER_KEYWORDS_VIREMENT.any (fun kw => containsStr nom_upper kw) then false
    else true

/-- Model of est_exclus (analyser_hybride.py lines 201-262): whether a
transaction must be excluded from lender detection, given the name and the
upstream category tag. Early returns become an if-chain. -/
def est_exclus (nom : String) (categorie : String) : Bool :=
  let nom_upper := majuscules nom
  let categorieExclut : Bool :=
    if categorie ≠ "" then
      let categorie_lower := minuscules categorie
      if containsStr categorie_lower "gambling" || containsStr categorie_lower "casino" then true
      else if CATEGORIES_DEPENSES.any (fun x => containsStr categorie_lower x) then true
      else if containsStr categorie_lower "atm" then true
      else if containsStr categorie_lower "transfer" then exclusion_transfert nom
      else false
    else false
  if categorieExclut then true
  else if EXCLUSIONS_PATTERNS.any (fun p => containsStr nom_upper p) then true
  else if (EXCLUSIONS_GAMBLING ++ EXCLUSIONS_SERVICES_PAIEMENT ++ EXCLUSIONS_AUTRES
      ++ EXCLUSIONS_PATTERNS).any (fun e => containsStr nom_upper e) then true
  else if (coupeEspaces nom).data.length < 4 then true
  else false

/-! ## Repetition counting and description normalisation -/

/-- Canonical transaction record: the normalized upstream schema that the
orchestrator reads (date, description, signed amount, category tag). -/
structure Transaction where
  date : String
  description : String
  amount : ℚ
  category : String
deriving DecidableEq, Repr

/-- Word set of a description: set(description.upper().split()). -/
def ensembleMots (s : String) : Finset String := (mots (majuscules s)).toFinset

/-- The per-history-item test of count_similar_transactions: Jaccard
similarity of the word sets is at least the threshold (empty word sets are
skipped). -/
def estSimilaire (desc_words : Finset String) (threshold : ℚ) (past : Transaction) : Bool :=
  let past_words := ensembleMots past.description
  if past_words.card = 0 then false
  else
    let intersection := (desc_words ∩ past_words).card
    let reunion := (desc_words ∪ past_words).card
    if 0 < reunion then decide (threshold ≤ (intersection : ℚ) / (reunion : ℚ)) else false

/-- Model of count_similar_transactions (analyser_hybride.py lines 269-311):
count history items whose word set has Jaccard similarity at least
`threshold` with the description's word set. Call sites pass the source's
default threshold 0.8. -/
def count_similar_transactions (description : String) (transaction_history : List Transaction)
    (threshold : ℚ) : Nat :=
  if transaction_history.isEmpty then 0
  else if (ensembleMots description).card = 0 then 0
  else transaction_history.countP (estSimilaire (ensembleMots description) threshold)

/-- Model of normalize_description (analyser_hybride.py lines 314-322):
uppercase, replace non word or space characters by spaces, collapse
whitespace runs, strip. -/
def normalize_description (description : String) : String :=
  let up := majuscules description
  let remplace := String.mk (up.data.map
    (fun c => if isWordChar c || c.isWhitespace then c else ' '))
  joindreMots (mots remplace)

/-! ## Hybrid scorer (analyser_hybride.py, calculate_lender_score_hybrid) -/

/-- Result of calculate_lender_score_hybrid: score, confidence tier,
detection source, reasons, matched lender name, recommended action. -/
structure ScoreResult where
  score : ℤ
  confidence : String
  source : String
  reasons : List String
  preteur_nom : String
  action : String
deriving DecidableEq, Repr

/-- One scoring rule step: when the condition holds, add the points and
append the reason. -/
def ajouterRegle (cond : Bool) (pts : ℤ) (raison : String) :
    ℤ × List String → ℤ × List String
  | (s, rs) => if cond then (s + pts, rs ++ [raison]) else (s, rs)

/-- ETAPE 3 and ETAPE 4 of calculate_lender_score_hybrid (analyser_hybride.py
lines 410-525): the heuristic rules and penalties, accumulating the raw score
and the reason list. `desc_upper` is the normalized description,
`description` the raw one, `similar_count` the repetition count. -/
def regles_et_penalites (desc_upper description : String) (amount : ℚ)
    (similar_count : Nat) : ℤ × List String :=
  let keywords_found := KEYWORDS_PRETEUR.filter (fun k => containsStr desc_upper k)
  -- REGLE A: suspect keywords (+30)
  let sr := ajouterRegle (!keywords_found.isEmpty) 30 "Mots-cles suspects" (0, [])
  -- REGLE B: suspicious round amount (+15)
  let sr := ajouterRegle (decide (amount ∈ MONTANTS_SUSPECTS)) 15 "Montant rond suspect" sr
  -- REGLE C: repeated transactions (+10 to +35)
  let sr :=
    if 5 ≤ similar_count then ajouterRegle true 35 "Transactions tres repetitives" sr
    else if 3 ≤ similar_count then ajouterRegle true 25 "Transactions repetitives" sr
    else if 2 ≤ similar_count then ajouterRegle true 10 "Quelques repetitions" sr
    else sr
  -- REGLE D: banking prefixes (+10, first match only)
  let sr :=
    match PREFIXES_SUSPECTS.find? (fun p => startsWithStr desc_upper p) with
    | some p => ajouterRegle true 10 ("Prefixe bancaire suspect: " ++ p) sr
    | none => sr
  -- REGLE E: typical payday-loan amount (+10)
  let sr := ajouterRegle (decide (50 ≤ amount ∧ amount ≤ 5000)) 10
    "Montant typique payday loan (50-5000)" sr
  -- REGLE F: suspicious combinations (+20 to +25)
  let sr := ajouterRegle
    (containsStr desc_upper "CREDIT" && decide (amount < 2000) && decide (0 < amount)) 20
    "Combinaison: CREDIT + petit montant" sr
  let sr := ajouterRegle
    (containsStr desc_upper "FINANCE" && decide (amount ∈ MONTANTS_SUSPECTS)) 20
    "Combinaison: FINANCE + montant rond" sr
  let sr := ajouterRegle
    (containsStr desc_upper "LOAN" && decide (2 ≤ similar_count)) 20
    "Combinaison: LOAN + repetitions" sr
  let avecPref := ["PMT", "VIR"].any (fun p => startsWithStr desc_upper p)
  let avecMotCle := ["CREDIT", "LOAN", "FINANCE", "PRET"].any
    (fun k => containsStr desc_upper k)
  let avecMontant := decide (50 ≤ amount ∧ amount ≤ 5000)
  let sr := ajouterRegle (avecPref && avecMotCle && avecMontant) 25
    "Triple combinaison suspecte (prefixe + mot-cle + montant)" sr
  -- PENALITE A: very high amounts (-20 to -40)
  let sr :=
    if 20000 < amount then ajouterRegle true (-40) "Montant extreme (plus de 20K)" sr
    else if 10000 < amount then ajouterRegle true (-20) "Montant tres eleve (plus de 10K)" sr
    else sr
  -- PENALITE B: generic descriptions (-15 to -20)
  let sr := ajouterRegle (decide ((coupeEspaces description).data.length < 10)) (-15)
    "Description trop courte" sr
  let sr := ajouterRegle (decide (coupeEspaces (majuscules description) ∈ GENERIC_DESCRIPTIONS))
    (-20) "Description trop generique" sr
  -- PENALITE C: excessive frequency (-10)
  let sr := ajouterRegle (decide (20 < similar_count)) (-10)
    "Frequence excessive (plus de 20 transactions)" sr
  sr

/-- Model of calculate_lender_score_hybrid (analyser_hybride.py lines
329-563). Branches in order: registry lender, registry exclusion, non-lender
keyword short-circuit, then heuristic rules, penalties and the clamp to
[0, 100]. -/
def calculate_lender_score_hybrid (description : String) (amount0 : ℚ)
    (transaction_history : List Transaction) : ScoreResult :=
  let amount := |amount0|
  let desc_upper := normalize_description description
  let result := categoriser_transaction description
  if result.type = "preteur" then
    let source :=
      if result.nom ∈ PRETEURS_COMPLEMENTAIRES then "LISTE_COMPLEMENTAIRE" else "LISTE_OPC"
    { score := if source = "LISTE_OPC" then 95 else 90
      confidence := "TRES ELEVEE"
      source := source
      reasons := ["Preteur officiel identifie: " ++ result.nom]
      preteur_nom := result.nom
      action := "CONFIRMER - Preteur officiel du gouvernement du Quebec" }
  else if result.doit_exclure then
    { score := 0
      confidence := "N/A"
      source := "EXCLUSION"
      reasons := ["Exclusion automatique: " ++ majuscules result.type ++ " (" ++ result.nom ++ ")"]
      preteur_nom := ""
      action := "EXCLURE - " ++ result.type ++ " identifie" }
  else
    match NON_PRETEUR_KEYWORDS.find? (fun kw => containsStr desc_upper kw) with
    | some non_kw =>
      { score := 0
        confidence := "TRES FAIBLE"
        source := "AUCUNE"
        reasons := ["Non-preteur detecte: " ++ non_kw]
        preteur_nom := ""
        action := "NON-PRETEUR - Ignorer" }
    | none =>
      let sr := regles_et_penalites desc_upper description amount
        (count_similar_transactions description transaction_history (4/5))
      let final_score : ℤ := max 0 (min 100 sr.1)
      let confidence :=
        if 80 ≤ final_score then "TRES ELEVEE"
        else if 60 ≤ final_score then "ELEVEE"
        else if 40 ≤ final_score then "MOYENNE"
        else if 20 ≤ final_score then "FAIBLE"
        else "TRES FAIBLE"
      let action :=
        if 80 ≤ final_score then "CONFIRMER - Tres probable preteur"
        else if 60 ≤ final_score then "PROBABLE - Verifier manuellement"
        else if 40 ≤ final_score then "POSSIBLE - Investigation requise"
        else if 20 ≤ final_score then "IMPROBABLE - Peut ignorer"
        else "NON-PRETEUR - Ignorer"
      let source := if 0 < final_score ∧ ¬sr.2.isEmpty then "REGLES" else "AUCUNE"
      { score := final_score
        confidence := confidence
        source := source
        reasons := sr.2
        preteur_nom := ""
        action := action }

/-! ## Classification and aggregation orchestrator (detect_lenders_hybrid) -/

/-- A transaction as recorded inside a bucket entry (date, description,
absolute amount). -/
structure TransRecord where
  date : String
  description : String
  amount : ℚ
deriving DecidableEq, Repr

/-- One bucket entry of detect_lenders_hybrid. -/
structure EntreePreteur where
  nom : String
  score : ℤ
  confidence : String
  source : String
  reasons : List String
  action : String
  transactions : List TransRecord
  total_paye : ℚ
deriving DecidableEq, Repr

/-- The four buckets, as insertion-ordered association lists (Python dicts
preserve insertion order). -/
structure EtatDetection where
  preteurs_confirmes : List (String × EntreePreteur)
  preteurs_probables : List (String × EntreePreteur)
  preteurs_possibles : List (String × EntreePreteur)
  exclusions : List (String × EntreePreteur)
deriving DecidableEq, Repr

/-- Add a transaction to a bucket under `key`: create the entry if the key is
absent, then append the transaction record and add the amount to the running
total. -/
def ajouterAuBucket (bucket : List (String × EntreePreteur)) (key : String)
    (entry : EntreePreteur) (tr : TransRecord) (amount : ℚ) : List (String × EntreePreteur) :=
  let b := if bucket.any (fun p => p.1 = key) then bucket else bucket ++ [(key, entry)]
  b.map (fun p =>
    if p.1 = key then
      (p.1, { p.2 with transactions := p.2.transactions ++ [tr],
                       total_paye := p.2.total_paye + amount })
    else p)

/-- Keep the maximum score seen for a heuristic-keyed bucket entry: when the
new score is larger, overwrite score, confidence and reasons. -/
def majScoreMax (bucket : List (String × EntreePreteur)) (key : String)
    (score : ℤ) (confidence : String) (reasons : List String) : List (String × EntreePreteur) :=
  bucket.map (fun p =>
    if p.1 = key ∧ p.2.score < score then
      (p.1, { p.2 with score := score, confidence := confidence, reasons := reasons })
    else p)

/-- The per-transaction step of detect_lenders_hybrid (analyser_hybride.py
lines 596-687): skip credits, skip est_exclus hits, otherwise score and
bucket by source and score. -/
def processTransaction (transaction_history : List Transaction) (st : EtatDetection)
    (trans : Transaction) : EtatDetection :=
  if 0 < trans.amount then st
  else
    let description := trans.description
    let amount := |trans.amount|
    if est_exclus description trans.category then st
    else
      let result := calculate_lender_score_hybrid description amount transaction_history
      let score := result.score
      let source := result.source
      let preteur_nom := if result.preteur_nom ≠ "" then result.preteur_nom
        else String.mk (description.data.take 40)
      let entry : EntreePreteur :=
        ⟨preteur_nom, score, result.confidence, source, result.reasons, result.action, [], 0⟩
      let tr : TransRecord := ⟨trans.date, description, amount⟩
      if source = "EXCLUSION" then
        { st with exclusions := ajouterAuBucket st.exclusions preteur_nom entry tr amount }
      else if source = "LISTE_OPC" ∨ source = "LISTE_COMPLEMENTAIRE" then
        { st with preteurs_confirmes :=
            ajouterAuBucket st.preteurs_confirmes preteur_nom entry tr amount }
      else if 60 ≤ score then
        let key := String.mk ((normalize_description description).data.take 30)
        { st with preteurs_probables :=
            (majScoreMax (ajouterAuBucket st.preteurs_probables key entry tr amount)
              key score result.confidence result.reasons) }
      else if 40 ≤ score then
        let key := String.mk ((normalize_description description).data.take 30)
        { st with preteurs_possibles :=
            (majScoreMax (ajouterAuBucket st.preteurs_possibles key entry tr amount)
              key score result.confidence result.reasons) }
      else st

/-- Aggregate statistics of detect_lenders_hybrid. -/
structure Statistiques where
  nb_preteurs_confirmes : Nat
  nb_preteurs_probables : Nat
  nb_preteurs_possibles : Nat
  nb_exclusions : Nat
  total_transactions_analysees : Nat
  dette_confirmee : ℚ
  dette_probable : ℚ
  dette_possible : ℚ
  dette_totale_estimee : ℚ
deriving DecidableEq, Repr

/-- Result of detect_lenders_hybrid: the four buckets (as value lists) and
the statistics. -/
structure ResultatDetection where
  preteurs_confirmes : List EntreePreteur
  preteurs_probables : List EntreePreteur
  preteurs_possibles : List EntreePreteur
  exclusions : List EntreePreteur
  statistiques : Statistiques
deriving DecidableEq, Repr

/-- Model of detect_lenders_hybrid (analyser_hybride.py lines 570-712): fold
the per-transaction step over the batch, passing the whole batch as the
repetition history, then compute the statistics. -/
def detect_lenders_hybrid (transactions : List Transaction) : ResultatDetection :=
  let transaction_history := transactions
  let final := transactions.foldl (processTransaction transaction_history) ⟨[], [], [], []⟩
  let total_dette_confirmee := (final.preteurs_confirmes.map (fun p => p.2.total_paye)).sum
  let total_dette_probable := (final.preteurs_probables.map (fun p => p.2.total_paye)).sum
  let total_dette_possible := (final.preteurs_possibles.map (fun p => p.2.total_paye)).sum
  { preteurs_confirmes := final.preteurs_confirmes.map Prod.snd
    preteurs_probables := final.preteurs_probables.map Prod.snd
    preteurs_possibles := final.preteurs_possibles.map Prod.snd
    exclusions := final.exclusions.map Prod.snd
    statistiques :=
      { nb_preteurs_confirmes := final.preteurs_confirmes.length
        nb_preteurs_probables := final.preteurs_probables.length
        nb_preteurs_possibles := final.preteurs_possibles.length
        nb_exclusions := final.exclusions.length
        total_transactions_analysees := transactions.length
        dette_confirmee := total_dette_confirmee
        dette_probable := total_dette_probable
        dette_possible := total_dette_possible
        dette_totale_estimee := total_dette_confirmee + total_dette_probable } }

/-! ## Knock-out evaluator and risk score calculator -/

/-- One triggered knock-out descriptor: type, observed value, threshold,
human message. -/
structure KnockOut where
  type : String
  valeur : ℚ
  seuil : ℚ
  message : String
deriving DecidableEq, Repr

/-- Result of verifier_knock_outs. -/
structure KnockOutsResult where
  has_knock_outs : Bool
  knock_outs : List KnockOut
  nb_knock_outs : Nat
deriving DecidableEq, Repr

/-- The evaluation inputs read by verifier_knock_outs and
calculer_score_avance (the data_evaluation dict of analyser_hybride.py). -/
structure DonneesEvaluation where
  revenus_mensuels : ℚ
  total_paiements_prets : ℚ
  budget_disponible : ℚ
  nb_preteurs_confirmes : Nat
  nsf_30_jours : Nat
  overdraft_90_jours : Nat
deriving DecidableEq, Repr

/-- KNOCK-OUT 1 (analyser_hybride.py lines 802-819): debt/income ratio above
200 percent is critical, above 100 percent is severe; skipped entirely when
the income is not positive. -/
def ko_ratio_dr (revenus paiements : ℚ) : List KnockOut :=
  if 0 < revenus then
    let ratio_dr := paiements / revenus * 100
    if 200 < ratio_dr then [⟨"RATIO_DR_CRITIQUE", ratio_dr, 200, "Ratio D/R critique"⟩]
    else if 100 < ratio_dr then [⟨"RATIO_DR_SEVERE", ratio_dr, 100, "Ratio D/R severe"⟩]
    else []
  else []

/-- KNOCK-OUT 2 (lines 821-832): residual capacity, half the income minus
the payments, must not be negative; skipped when the income is not positive. -/
def ko_capacite (revenus paiements : ℚ) : List KnockOut :=
  if 0 < revenus then
    let capacite_residuelle := revenus * 0.5 - paiements
    if capacite_residuelle < 0 then
      [⟨"CAPACITE_NEGATIVE", capacite_residuelle, 0, "Capacite residuelle negative"⟩]
    else []
  else []

/-- KNOCK-OUT 3 (lines 834-841): more than five confirmed lenders. -/
def ko_preteurs (nb_preteurs : Nat) : List KnockOut :=
  if 5 < nb_preteurs then [⟨"TROP_PRETEURS", (nb_preteurs : ℚ), 5, "Trop de preteurs"⟩] else []

/-- KNOCK-OUT 4 (lines 843-850): more than two NSF in 30 days. -/
def ko_nsf (nsf_30j : Nat) : List KnockOut :=
  if 2 < nsf_30j then [⟨"NSF_REPETES", (nsf_30j : ℚ), 2, "Cheques sans provision repetes"⟩] else []

/-- KNOCK-OUT 5 (lines 852-859): more than five overdrafts in 90 days. -/
def ko_overdraft (overdraft_90j : Nat) : List KnockOut :=
  if 5 < overdraft_90j then
    [⟨"OVERDRAFT_CHRONIQUE", (overdraft_90j : ℚ), 5, "Decouverts chroniques"⟩] else []

/-- Model of verifier_knock_outs (analyser_hybride.py lines 788-865): all
five checks are evaluated, every triggered one is appended. -/
def verifier_knock_outs (data : DonneesEvaluation) : KnockOutsResult :=
  let knock_outs :=
    ko_ratio_dr data.revenus_mensuels data.total_paiements_prets
      ++ ko_capacite data.revenus_mensuels data.total_paiements_prets
      ++ ko_preteurs data.nb_preteurs_confirmes
      ++ ko_nsf data.nsf_30_jours
      ++ ko_overdraft data.overdraft_90_jours
  { has_knock_outs := decide (0 < knock_outs.length)
    knock_outs := knock_outs
    nb_knock_outs := knock_outs.length }

/-- Result of calculer_score_avance. In the knock-out branch the Python dict
carries a 'raison' key and no penalties; otherwise 'raison' is absent,
modelled as the empty string. -/
structure ScoreAvance where
  score : ℤ
  niveau_risque : String
  raison : String
  penalites : List String
  knock_outs : List KnockOut
deriving DecidableEq, Repr

/-- PENALITE 1 (analyser_hybride.py lines 896-911): debt/income ratio tiers;
skipped when the income is not positive. Returns (points to subtract,
penalty descriptions). -/
def penalite_ratio_dr (revenus paiements : ℚ) : ℤ × List String :=
  if 0 < revenus then
    let ratio_dr := paiements / revenus * 100
    if 75 < ratio_dr then (20, ["Ratio D/R eleve: -20 pts"])
    else if 50 < ratio_dr then (15, ["Ratio D/R limite: -15 pts"])
    else if 30 < ratio_dr then (10, ["Ratio D/R modere: -10 pts"])
    else if 15 < ratio_dr then (5, ["Ratio D/R acceptable: -5 pts"])
    else (0, [])
  else (0, [])

/-- PENALITE 2 (lines 913-925): available budget tiers. -/
def penalite_budget (budget : ℚ) : ℤ × List String :=
  if budget < 0 then (20, ["Budget negatif: -20 pts"])
  else if budget < 500 then (15, ["Budget tres serre: -15 pts"])
  else if budget < 1000 then (10, ["Budget serre: -10 pts"])
  else if budget < 1500 then (5, ["Budget limite: -5 pts"])
  else (0, [])

/-- PENALITE 3 (lines 927-942): active lender count tiers. -/
def penalite_preteurs (nb_preteurs : Nat) : ℤ × List String :=
  if nb_preteurs = 5 then (20, ["5 preteurs actifs: -20 pts"])
  else if nb_preteurs = 4 then (15, ["4 preteurs actifs: -15 pts"])
  else if nb_preteurs = 3 then (10, ["3 preteurs actifs: -10 pts"])
  else if nb_preteurs = 2 then (5, ["2 preteurs actifs: -5 pts"])
  else if nb_preteurs = 1 then (2, ["1 preteur actif: -2 pts"])
  else (0, [])

/-- PENALITE 4 (lines 944-950): NSF tiers. -/
def penalite_nsf (nsf : Nat) : ℤ × List String :=
  if nsf = 2 then (15, ["2 NSF en 30j: -15 pts"])
  else if nsf = 1 then (10, ["1 NSF en 30j: -10 pts"])
  else (0, [])

/-- PENALITE 5 (lines 952-961): overdraft tiers. -/
def penalite_overdraft (overdraft : Nat) : ℤ × List String :=
  if overdraft = 5 then (12, ["5 decouverts en 90j: -12 pts"])
  else if 3 ≤ overdraft then (8, ["Decouverts en 90j: -8 pts"])
  else if 1 ≤ overdraft then (5, ["Decouverts en 90j: -5 pts"])
  else (0, [])

/-- Model of calculer_score_avance (analyser_hybride.py lines 868-981): a
triggered knock-out forces score 0 and the critical tier; otherwise start at
100, subtract the five progressive penalties, floor at 0 and grade the risk
tier. -/
def calculer_score_avance (data : DonneesEvaluation) (knock_outs_result : KnockOutsResult) :
    ScoreAvance :=
  if knock_outs_result.has_knock_outs then
    { score := 0
      niveau_risque := "CRITIQUE"
      raison := "REFUS AUTOMATIQUE - Knock-outs declenches"
      penalites := []
      knock_outs := knock_outs_result.knock_outs }
  else
    let p1 := penalite_ratio_dr data.revenus_mensuels data.total_paiements_prets
    let p2 := penalite_budget data.budget_disponible
    let p3 := penalite_preteurs data.nb_preteurs_confirmes
    let p4 := penalite_nsf data.nsf_30_jours
    let p5 := penalite_overdraft data.overdraft_90_jours
    let score : ℤ := max 0 (100 - p1.1 - p2.1 - p3.1 - p4.1 - p5.1)
    let niveau_risque :=
      if 80 ≤ score then "FAIBLE"
      else if 60 ≤ score then "MODÉRÉ"
      else if 40 ≤ score then "ÉLEVÉ"
      else "TRÈS ÉLEVÉ"
    { score := score
      niveau_risque := niveau_risque
      raison := ""
      penalites := p1.2 ++ p2.2 ++ p3.2 ++ p4.2 ++ p5.2
      knock_outs := [] }

/-! ## Claim theorems -/

/-- C1: for every input to calculer_score_avance, if the knock-out
evaluation result has at least one triggered knock-out, the returned risk
score is 0 and the risk tier is CRITIQUE, no matter what income, payments,
budget, lender count, NSF or overdraft values are supplied. -/
theorem C1_knock_out_force_score_zero (d dko : DonneesEvaluation)
    (h : (verifier_knock_outs dko).knock_outs ≠ []) :
    (calculer_score_avance d (verifier_knock_outs dko)).score = 0 ∧
    (calculer_score_avance d (verifier_knock_outs dko)).niveau_risque = "CRITIQUE" := by
  have hko : (verifier_knock_outs dko).has_knock_outs = true := by
    simp only [verifier_knock_outs] at h ⊢
    exact decide_eq_true_iff.2 (List.length_pos.2 h)
  simp [calculer_score_avance, hko]

/-- Witness for C1: six confirmed lenders trigger a knock-out; the risk
score of an otherwise healthy applicant is forced to 0 and CRITIQUE. -/
theorem C1_witness :
    (verifier_knock_outs ⟨0, 0, 0, 6, 0, 0⟩).knock_outs ≠ [] ∧
    ((calculer_score_avance ⟨10000, 0, 5000, 0, 0, 0⟩ (verifier_knock_outs ⟨0, 0, 0, 6, 0, 0⟩)).score = 0 ∧
     (calculer_score_avance ⟨10000, 0, 5000, 0, 0, 0⟩ (verifier_knock_outs ⟨0, 0, 0, 6, 0, 0⟩)).niveau_risque = "CRITIQUE") :=
  ⟨by decide, C1_knock_out_force_score_zero ⟨10000, 0, 5000, 0, 0, 0⟩ ⟨0, 0, 0, 6, 0, 0⟩ (by decide)⟩

/-- C2: for every description, amount and transaction history, the score
returned by calculate_lender_score_hybrid lies in [0, 100]: the heuristic
sum is clamped, and the exact-list, exclusion and non-lender short-circuit
branches return 95, 90 or 0. -/
theorem C2_score_entre_0_et_100 (description : String) (amount : ℚ)
    (history : List Transaction) :
    0 ≤ (calculate_lender_score_hybrid description amount history).score ∧
    (calculate_lender_score_hybrid description amount history).score ≤ 100 := by
  simp only [calculate_lender_score_hybrid]
  split
  · split <;> simp
  · split
    · simp
    · split
      · simp
      · exact ⟨le_max_left _ _, max_le (by norm_num) (min_le_left _ _)⟩

/-- C9: the repetition count returned by count_similar_transactions is
invariant under any reordering of the history list. -/
theorem C9_comptage_invariant_permutation (description : String)
    (h1 h2 : List Transaction) (threshold : ℚ) (hp : h1.Perm h2) :
    count_similar_transactions description h1 threshold
      = count_similar_transactions description h2 threshold := by
  unfold count_similar_transactions
  have hemp : h1.isEmpty = h2.isEmpty := by
    have := hp.length_eq
    cases h1 <;> cases h2 <;> simp_all
  rw [hemp]
  split
  · rfl
  · split
    · rfl
    · exact hp.countP_eq _

/-- Witness for C9: swapping a two-element history leaves the count at 2. -/
theorem C9_witness :
    count_similar_transactions "PRET ABC"
        [⟨"2025-01-01", "PRET ABC", -1, ""⟩, ⟨"2025-01-02", "PRET ABC XYZ", -2, ""⟩] (4/5)
      = count_similar_transactions "PRET ABC"
        [⟨"2025-01-02", "PRET ABC XYZ", -2, ""⟩, ⟨"2025-01-01", "PRET ABC", -1, ""⟩] (4/5) :=
  C9_comptage_invariant_permutation "PRET ABC" _ _ (4/5) (by decide)

/-- A transaction whose word set is nonempty is Jaccard-similar to itself
(similarity 1 is at least the 0.8 threshold). -/
lemma estSimilaire_self (t : Transaction)
    (hW : (ensembleMots t.description).card ≠ 0) :
    estSimilaire (ensembleMots t.description) (4/5) t = true := by
  unfold estSimilaire
  rw [if_neg hW, Finset.inter_self, Finset.union_self,
    if_pos (Nat.pos_of_ne_zero hW)]
  rw [div_self (by exact_mod_cast hW)]
  norm_num

/-- C10: detect_lenders_hybrid passes the whole batch, the scored
transaction included, as the repetition history; hence a scored transaction
whose description has at least one word always counts itself (count at
least 1), and one other similar transaction in the batch already yields a
count of at least 2, firing the lowest repetition bonus tier. -/
theorem C10_auto_similarite (l₁ l₂ : List Transaction) (t : Transaction)
    (hw : (ensembleMots t.description).card ≠ 0) :
    1 ≤ count_similar_transactions t.description (l₁ ++ t :: l₂) (4/5) ∧
    (∀ t' ∈ l₁ ++ l₂, estSimilaire (ensembleMots t.description) (4/5) t' = true →
      2 ≤ count_similar_transactions t.description (l₁ ++ t :: l₂) (4/5)) := by
  have hself := estSimilaire_self t hw
  unfold count_similar_transactions
  rw [if_neg (by simp), if_neg hw]
  constructor
  · rw [List.countP_append, List.countP_cons_of_pos _ _ hself]
    omega
  · intro t' ht' hsim
    rw [List.countP_append, List.countP_cons_of_pos _ _ hself]
    rcases List.mem_append.1 ht' with h | h
    · have : 0 < l₁.countP (estSimilaire (ensembleMots t.description) (4/5)) :=
        List.countP_pos_iff.2 ⟨t', h, hsim⟩
      omega
    · have : 0 < l₂.countP (estSimilaire (ensembleMots t.description) (4/5)) :=
        List.countP_pos_iff.2 ⟨t', h, hsim⟩
      omega

/-- Witness for C10: a batch of two near-identical lender payments gives
the middle transaction a repetition count of at least 2. -/
theorem C10_witness :
    2 ≤ count_similar_transactions "PRET RAPIDE ABC"
        [⟨"2025-01-01", "PRET RAPIDE ABC", -200, ""⟩,
         ⟨"2025-01-08", "PRET RAPIDE ABC", -200, ""⟩] (4/5) :=
  (C10_auto_similarite [] [⟨"2025-01-08", "PRET RAPIDE ABC", -200, ""⟩]
      ⟨"2025-01-01", "PRET RAPIDE ABC", -200, ""⟩ (by with_unfolding_all decide)).2
    ⟨"2025-01-08", "PRET RAPIDE ABC", -200, ""⟩ (by simp) (by with_unfolding_all decide)

/-- Helper for C8: with zero income the ratio knock-out is skipped. -/
lemma ko_ratio_dr_revenu_nul (p : ℚ) : ko_ratio_dr 0 p = [] := by
  simp [ko_ratio_dr]

/-- Helper for C8: with zero income the residual-capacity knock-out is
skipped. -/
lemma ko_capacite_revenu_nul (p : ℚ) : ko_capacite 0 p = [] := by
  simp [ko_capacite]

/-- Helper for C8: every lender-count knock-out has type TROP_PRETEURS. -/
lemma ko_preteurs_type {k : KnockOut} {n : Nat} (hk : k ∈ ko_preteurs n) :
    k.type = "TROP_PRETEURS" := by
  unfold ko_preteurs at hk
  split at hk <;> simp_all

/-- Helper for C8: every NSF knock-out has type NSF_REPETES. -/
lemma ko_nsf_type {k : KnockOut} {n : Nat} (hk : k ∈ ko_nsf n) :
    k.type = "NSF_REPETES" := by
  unfold ko_nsf at hk
  split at hk <;> simp_all

/-- Helper for C8: every overdraft knock-out has type OVERDRAFT_CHRONIQUE. -/
lemma ko_overdraft_type {k : KnockOut} {n : Nat} (hk : k ∈ ko_overdraft n) :
    k.type = "OVERDRAFT_CHRONIQUE" := by
  unfold ko_overdraft at hk
  split at hk <;> simp_all

/-- Helper for C8: with zero income the ratio penalty is skipped. -/
lemma penalite_ratio_dr_revenu_nul (p : ℚ) : penalite_ratio_dr 0 p = (0, []) := by
  simp [penalite_ratio_dr]

/-- Every penalty string that the four income-independent penalty rules can
produce. -/
def PENALITES_SANS_RATIO_DR : List String :=
  ["Budget negatif: -20 pts", "Budget tres serre: -15 pts",
   "Budget serre: -10 pts", "Budget limite: -5 pts",
   "5 preteurs actifs: -20 pts", "4 preteurs actifs: -15 pts",
   "3 preteurs actifs: -10 pts", "2 preteurs actifs: -5 pts", "1 preteur actif: -2 pts",
   "2 NSF en 30j: -15 pts", "1 NSF en 30j: -10 pts",
   "5 decouverts en 90j: -12 pts", "Decouverts en 90j: -8 pts", "Decouverts en 90j: -5 pts"]

/-- Helper for C8: the budget penalty strings. -/
lemma penalite_budget_sub (b : ℚ) : (penalite_budget b).2 ⊆ PENALITES_SANS_RATIO_DR := by
  unfold penalite_budget
  split_ifs <;> simp [PENALITES_SANS_RATIO_DR]

/-- Helper for C8: the lender-count penalty strings. -/
lemma penalite_preteurs_sub (n : Nat) : (penalite_preteurs n).2 ⊆ PENALITES_SANS_RATIO_DR := by
  unfold penalite_preteurs
  split_ifs <;> simp [PENALITES_SANS_RATIO_DR]

/-- Helper for C8: the NSF penalty strings. -/
lemma penalite_nsf_sub (n : Nat) : (penalite_nsf n).2 ⊆ PENALITES_SANS_RATIO_DR := by
  unfold penalite_nsf
  split_ifs <;> simp [PENALITES_SANS_RATIO_DR]

/-- Helper for C8: the overdraft penalty strings. -/
lemma penalite_overdraft_sub (n : Nat) : (penalite_overdraft n).2 ⊆ PENALITES_SANS_RATIO_DR := by
  unfold penalite_overdraft
  split_ifs <;> simp [PENALITES_SANS_RATIO_DR]

/-- C8: when the monthly income is 0, the two debt/income-ratio knock-outs
and the residual-capacity knock-out are never triggered (every triggered
knock-out is one of the three income-independent ones), and the
debt/income-ratio penalty is never applied (no applied penalty mentions the
ratio); both functions are total and always return a result. -/
theorem C8_revenu_nul_sans_ratio (d : DonneesEvaluation) (ko : KnockOutsResult)
    (h : d.revenus_mensuels = 0) :
    (∀ k ∈ (verifier_knock_outs d).knock_outs,
        k.type = "TROP_PRETEURS" ∨ k.type = "NSF_REPETES" ∨ k.type = "OVERDRAFT_CHRONIQUE") ∧
    (∀ p ∈ (calculer_score_avance d ko).penalites, containsStr p "Ratio" = false) := by
  constructor
  · intro k hk
    simp only [verifier_knock_outs, h, ko_ratio_dr_revenu_nul, ko_capacite_revenu_nul,
      List.nil_append, List.mem_append] at hk
    rcases hk with (hk | hk) | hk
    · exact Or.inl (ko_preteurs_type hk)
    · exact Or.inr (Or.inl (ko_nsf_type hk))
    · exact Or.inr (Or.inr (ko_overdraft_type hk))
  · intro p hp
    unfold calculer_score_avance at hp
    split at hp
    · simp at hp
    · simp [h, penalite_ratio_dr_revenu_nul, List.mem_append] at hp
      have hmem : p ∈ PENALITES_SANS_RATIO_DR := by
        rcases hp with hp | hp | hp | hp
        · exact penalite_budget_sub _ hp
        · exact penalite_preteurs_sub _ hp
        · exact penalite_nsf_sub _ hp
        · exact penalite_overdraft_sub _ hp
      have hL : ∀ q ∈ PENALITES_SANS_RATIO_DR, containsStr q "Ratio" = false := by decide
      exact hL p hmem

/-- Witness for C8: a zero-income applicant with huge lender payments
triggers no ratio knock-out and receives no ratio penalty. -/
theorem C8_witness :
    (0 : ℚ) = 0 ∧
    ((∀ k ∈ (verifier_knock_outs ⟨0, 5000, 100, 2, 1, 1⟩).knock_outs,
        k.type = "TROP_PRETEURS" ∨ k.type = "NSF_REPETES" ∨ k.type = "OVERDRAFT_CHRONIQUE") ∧
     (∀ p ∈ (calculer_score_avance ⟨0, 5000, 100, 2, 1, 1⟩
          (verifier_knock_outs ⟨0, 5000, 100, 2, 1, 1⟩)).penalites,
        containsStr p "Ratio" = false)) :=
  ⟨rfl, C8_revenu_nul_sans_ratio ⟨0, 5000, 100, 2, 1, 1⟩
    (verifier_knock_outs ⟨0, 5000, 100, 2, 1, 1⟩) rfl⟩

/-- C7: for every name whose category tag contains 'transfer', the
transfer-tag rule of est_exclus does not exclude the name when it matches a
known lender or contains a configured lender keyword; when it matches
neither, est_exclus returns true. -/
theorem C7_transfert_exclusion (nom categorie : String)
    (hcat : containsStr (minuscules categorie) "transfer" = true) :
    ((est_preteur nom).1 = true ∨
        LENDER_KEYWORDS_VIREMENT.any (fun kw => containsStr (majuscules nom) kw) = true →
      exclusion_transfert nom = false) ∧
    ((est_preteur nom).1 = false ∧
        LENDER_KEYWORDS_VIREMENT.any (fun kw => containsStr (majuscules nom) kw) = false →
      est_exclus nom categorie = true) := by
  constructor
  · intro h
    unfold exclusion_transfert
    rcases h with h | h
    · simp [h]
    · cases hl : (est_preteur nom).1 <;> simp [h]
  · rintro ⟨h1, h2⟩
    have hct : exclusion_transfert nom = true := by
      unfold exclusion_transfert
      simp [h1, h2]
    have hne : categorie ≠ "" := by
      rintro rfl
      exact absurd hcat (by decide)
    simp only [est_exclus]
    rw [if_pos hne]
    cases hgc : (containsStr (minuscules categorie) "gambling"
        || containsStr (minuscules categorie) "casino") <;>
      cases hdep : CATEGORIES_DEPENSES.any (fun x => containsStr (minuscules categorie) x) <;>
        cases hatm : containsStr (minuscules categorie) "atm" <;>
          simp [hgc, hdep, hatm, hcat, hct]

/-- Witness for C7: a transfer-tagged description containing the lender
keyword CREDIT is not excluded by the transfer rule. -/
theorem C7_witness :
    containsStr (minuscules "transfer") "transfer" = true ∧
    exclusion_transfert "PMT CREDIT SERVICE" = false :=
  ⟨by decide,
   (C7_transfert_exclusion "PMT CREDIT SERVICE" "transfer" (by decide)).1
     (Or.inr (by decide))⟩

/-- The official OPC list and the supplementary list are disjoint, so the
official-or-supplementary split of the matched name is exclusive. -/
lemma opc_pas_complementaire : ∀ s ∈ PRETEURS_OFFICIELS_OPC, s ∉ PRETEURS_COMPLEMENTAIRES := by
  decide

/-- C3: when the registry resolves a description to a lender, the hybrid
score is source LISTE_OPC with score 95 for an official name and source
LISTE_COMPLEMENTAIRE with score 90 for a supplementary name, for every
amount and every transaction history. -/
theorem C3_preteur_source_score (description : String) (amount : ℚ)
    (history : List Transaction)
    (h : (categoriser_transaction description).type = "preteur") :
    ((categoriser_transaction description).nom ∈ PRETEURS_COMPLEMENTAIRES →
      (calculate_lender_score_hybrid description amount history).source = "LISTE_COMPLEMENTAIRE" ∧
      (calculate_lender_score_hybrid description amount history).score = 90) ∧
    ((categoriser_transaction description).nom ∈ PRETEURS_OFFICIELS_OPC →
      (calculate_lender_score_hybrid description amount history).source = "LISTE_OPC" ∧
      (calculate_lender_score_hybrid description amount history).score = 95) := by
  constructor
  · intro hm
    simp only [calculate_lender_score_hybrid]
    rw [if_pos h, if_pos hm]
    simp
  · intro ho
    have hnc := opc_pas_complementaire _ ho
    simp only [calculate_lender_score_hybrid]
    rw [if_pos h, if_neg hnc]
    simp

/-- Witness for C3: MONEY MART MONTREAL resolves to the official lender
MONEY MART and scores 95 from source LISTE_OPC. -/
theorem C3_witness :
    (categoriser_transaction "MONEY MART MONTREAL").type = "preteur" ∧
    (categoriser_transaction "MONEY MART MONTREAL").nom ∈ PRETEURS_OFFICIELS_OPC ∧
    (calculate_lender_score_hybrid "MONEY MART MONTREAL" 300 []).source = "LISTE_OPC" ∧
    (calculate_lender_score_hybrid "MONEY MART MONTREAL" 300 []).score = 95 := by
  have hc : categoriser_transaction "MONEY MART MONTREAL" = ⟨"preteur", "MONEY MART", false⟩ := by
    decide
  have hty : (categoriser_transaction "MONEY MART MONTREAL").type = "preteur" := by rw [hc]
  have hofficiel : (categoriser_transaction "MONEY MART MONTREAL").nom ∈ PRETEURS_OFFICIELS_OPC := by
    rw [hc]
    decide
  exact ⟨hty, hofficiel,
    (C3_preteur_source_score "MONEY MART MONTREAL" 300 [] hty).2 hofficiel⟩

/-- C6: when the registry neither resolves the description to a lender nor
auto-excludes it, and the normalized description contains a configured
non-lender keyword, calculate_lender_score_hybrid returns score 0 with
source AUCUNE immediately, for every amount and history. -/
theorem C6_non_preteur_score_zero (description : String) (amount : ℚ)
    (history : List Transaction)
    (h1 : (categoriser_transaction description).type ≠ "preteur")
    (h2 : (categoriser_transaction description).doit_exclure = false)
    (h3 : NON_PRETEUR_KEYWORDS.any
        (fun kw => containsStr (normalize_description description) kw) = true) :
    (calculate_lender_score_hybrid description amount history).score = 0 ∧
    (calculate_lender_score_hybrid description amount history).source = "AUCUNE" := by
  simp only [calculate_lender_score_hybrid]
  rw [if_neg h1]
  rw [if_neg (by simp [h2])]
  rcases List.any_eq_true.1 h3 with ⟨kw, hkw, hc⟩
  cases hf : NON_PRETEUR_KEYWORDS.find? (fun kw => containsStr (normalize_description description) kw) with
  | some k => simp
  | none =>
    exact absurd hc (by simpa using List.find?_eq_none.1 hf kw hkw)

/-- Witness for C6: SALAIRE EMPLOYEUR ABC is unknown to the registry, not
auto-excluded, and contains the payroll keyword SALAIRE, so it scores 0 with
source AUCUNE. -/
theorem C6_witness :
    (calculate_lender_score_hybrid "SALAIRE EMPLOYEUR ABC" 3000 []).score = 0 ∧
    (calculate_lender_score_hybrid "SALAIRE EMPLOYEUR ABC" 3000 []).source = "AUCUNE" := by
  have hc : categoriser_transaction "SALAIRE EMPLOYEUR ABC" = ⟨"inconnu", "", false⟩ := by
    decide
  exact C6_non_preteur_score_zero "SALAIRE EMPLOYEUR ABC" 3000 []
    (by rw [hc]; decide) (by rw [hc]) (by decide)

/-- C4 (amended): a debit transaction that est_exclus flags is skipped
entirely by detect_lenders_hybrid: the per-transaction step leaves the state
unchanged, so such transactions are recorded in no bucket; in particular a
batch made only of such transactions produces an empty excluded bucket (the
excluded bucket receives only transactions whose registry categorisation
sets doit_exclure). -/
theorem C4_exclusion_non_enregistree :
    (∀ (history : List Transaction) (st : EtatDetection) (t : Transaction),
        est_exclus t.description t.category = true →
        processTransaction history st t = st) ∧
    (∀ txs : List Transaction,
        (∀ tr ∈ txs, est_exclus tr.description tr.category = true) →
        (detect_lenders_hybrid txs).exclusions = [] ∧
        (detect_lenders_hybrid txs).preteurs_confirmes = [] ∧
        (detect_lenders_hybrid txs).preteurs_probables = [] ∧
        (detect_lenders_hybrid txs).preteurs_possibles = []) := by
  have hstep : ∀ (history : List Transaction) (st : EtatDetection) (t : Transaction),
      est_exclus t.description t.category = true →
      processTransaction history st t = st := by
    intro history st t h
    simp [processTransaction, h]
  refine ⟨hstep, ?_⟩
  intro txs hall
  have hfold : ∀ (l : List Transaction) (acc : EtatDetection),
      (∀ tr ∈ l, est_exclus tr.description tr.category = true) →
      l.foldl (processTransaction txs) acc = acc := by
    intro l
    induction l with
    | nil => intro acc _; rfl
    | cons a as ih =>
      intro acc h
      rw [List.foldl_cons, hstep txs acc a (h a (List.mem_cons_self a as))]
      exact ih acc (fun tr htr => h tr (List.mem_cons_of_mem a htr))
  have hfin : txs.foldl (processTransaction txs) ⟨[], [], [], []⟩ = ⟨[], [], [], []⟩ :=
    hfold txs _ hall
  simp [detect_lenders_hybrid, hfin]

/-- Counterexample for C4 as stated: GIGADAT ABC is a debit, est_exclus
returns true for it, yet detect_lenders_hybrid records nothing in the
excluded bucket (the claim says it is still recorded there). -/
theorem C4_contre_exemple :
    est_exclus "GIGADAT ABC" "" = true ∧
    ((-100 : ℚ) < 0) ∧
    (detect_lenders_hybrid [⟨"2025-01-01", "GIGADAT ABC", -100, ""⟩]).exclusions = [] := by
  refine ⟨by decide, by norm_num, ?_⟩
  decide

/-- Witness for C4 (amended): the step on the excluded GIGADAT transaction
leaves the empty state unchanged. -/
theorem C4_witness :
    processTransaction [] ⟨[], [], [], []⟩ ⟨"2025-01-01", "GIGADAT ABC", -100, ""⟩
      = ⟨[], [], [], []⟩ :=
  C4_exclusion_non_enregistree.1 [] ⟨[], [], [], []⟩ ⟨"2025-01-01", "GIGADAT ABC", -100, ""⟩
    (by decide)

/-- C5 (amended): a transaction with amount strictly greater than 0 is
skipped entirely by detect_lenders_hybrid: the per-transaction step leaves
the state unchanged, and a batch made only of such transactions yields four
empty buckets and zero estimated debt. (Amount exactly 0 is NOT skipped:
see the counterexample.) -/
theorem C5_credits_ignores :
    (∀ (history : List Transaction) (st : EtatDetection) (t : Transaction),
        0 < t.amount →
        processTransaction history st t = st) ∧
    (∀ txs : List Transaction,
        (∀ tr ∈ txs, 0 < tr.amount) →
        (detect_lenders_hybrid txs).exclusions = [] ∧
        (detect_lenders_hybrid txs).preteurs_confirmes = [] ∧
        (detect_lenders_hybrid txs).preteurs_probables = [] ∧
        (detect_lenders_hybrid txs).preteurs_possibles = [] ∧
        (detect_lenders_hybrid txs).statistiques.dette_totale_estimee = 0) := by
  have hstep : ∀ (history : List Transaction) (st : EtatDetection) (t : Transaction),
      0 < t.amount → processTransaction history st t = st := by
    intro history st t h
    simp [processTransaction, h]
  refine ⟨hstep, ?_⟩
  intro txs hall
  have hfold : ∀ (l : List Transaction) (acc : EtatDetection),
      (∀ tr ∈ l, 0 < tr.amount) →
      l.foldl (processTransaction txs) acc = acc := by
    intro l
    induction l with
    | nil => intro acc _; rfl
    | cons a as ih =>
      intro acc h
      rw [List.foldl_cons, hstep txs acc a (h a (List.mem_cons_self a as))]
      exact ih acc (fun tr htr => h tr (List.mem_cons_of_mem a htr))
  have hfin : txs.foldl (processTransaction txs) ⟨[], [], [], []⟩ = ⟨[], [], [], []⟩ :=
    hfold txs _ hall
  simp [detect_lenders_hybrid, hfin]

/-- Counterexample for C5 as stated: a transaction with amount exactly 0
(which the claim says is skipped, since 0 is at least 0) is in fact scored
and lands in the possible-lenders bucket. -/
theorem C5_contre_exemple :
    (0 : ℚ) ≤ 0 ∧
    (detect_lenders_hybrid
        [⟨"2025-01-01", "PMT CREDIT SERVICE 123", 0, ""⟩]).preteurs_possibles.length = 1 := by
  refine ⟨le_refl 0, ?_⟩
  with_unfolding_all decide

/-- Witness for C5 (amended): the step on a 500-dollar deposit leaves the
empty state unchanged. -/
theorem C5_witness :
    processTransaction [] ⟨[], [], [], []⟩ ⟨"2025-01-01", "DEPOT SALAIRE", 500, ""⟩
      = ⟨[], [], [], []⟩ :=
  C5_credits_ignores.1 [] ⟨[], [], [], []⟩ ⟨"2025-01-01", "DEPOT SALAIRE", 500, ""⟩
    (by norm_num)

end SAR
